import Mathlib

/-!
Shallow embedding of `homework.py` (and the exception hierarchy duplicated in
`exceptions.py`) from the `homework-bot` repository: a Telegram bot that polls
the Practicum homework-status API in a loop, formats status changes, and sends
deduplicated error notifications.

Modelling conventions:
* Decoded JSON payloads are values of the inductive type `Json`.
* Python exceptions that the program raises or catches are values of `PyErr`;
  fallible Python functions become `Except PyErr` computations.
* Failures of the Telegram send call (`telebot` raising `apihelper.ApiException`
  or `requests.RequestException`, the two classes `send_message` catches and
  re-raises) are values of `SendErr`.
* Network I/O is modelled by an environment: the HTTP outcome of the single
  `requests.get` call and a stream of outcomes for the `bot.send_message` calls,
  consumed in order within one loop iteration.
-/

/-- A decoded JSON value, as returned by `response.json()`. -/
inductive Json where
  | null : Json
  | bool (b : Bool) : Json
  | num (n : Int) : Json
  | str (s : String) : Json
  | arr (xs : List Json) : Json
  | obj (fields : List (String × Json)) : Json
deriving Repr

/-- First value bound to `key` in an association list (Python dict lookup;
real dicts have unique keys, so first-match lookup models them faithfully). -/
def lookupField {α : Type} (fields : List (String × α)) (key : String) : Option α :=
  match fields with
  | [] => none
  | (k, v) :: rest => if k = key then some v else lookupField rest key

/-- Whether `pat` is a prefix of `s` (character lists). -/
def charsPrefix (pat s : List Char) : Bool :=
  match pat, s with
  | [], _ => true
  | _ :: _, [] => false
  | a :: as, b :: bs => a = b && charsPrefix as bs

/-- Whether `pat` occurs contiguously inside `s` (character lists);
models Python substring membership `pat in s`. -/
def charsInfix (pat s : List Char) : Bool :=
  match s with
  | [] => charsPrefix pat []
  | _ :: rest => charsPrefix pat s || charsInfix pat rest

/-- Python `d.get(key, default)` on a JSON object; non-objects never reach
`.get` in the embedded code paths that use this helper. -/
def jsonGetD (j : Json) (key : String) (default : Json) : Json :=
  match j with
  | Json.obj fields =>
    match lookupField fields key with
    | some v => v
    | none => default
  | _ => default

/-- The Python exceptions raised by the program: the built-ins it raises
(`TypeError`, `KeyError`, `ValueError`) and the custom hierarchy
`PracticumAPIError` with subclasses `APIRequestError`, `APIResponseError`,
`APIJSONError` (defined identically in `homework.py` and `exceptions.py`). -/
inductive PyErr where
  | typeError (msg : String) : PyErr
  | keyError (msg : String) : PyErr
  | valueError (msg : String) : PyErr
  | apiRequestError (msg : String) : PyErr
  | apiResponseError (msg : String) : PyErr
  | apiJsonError (msg : String) : PyErr
  | sendApiException (msg : String) : PyErr
  | sendRequestException (msg : String) : PyErr
deriving Repr, DecidableEq

/-- The Python class name of the exception, the discriminator on which
`except` clauses branch. -/
def PyErr.className : PyErr → String
  | .typeError _ => "TypeError"
  | .keyError _ => "KeyError"
  | .valueError _ => "ValueError"
  | .apiRequestError _ => "APIRequestError"
  | .apiResponseError _ => "APIResponseError"
  | .apiJsonError _ => "APIJSONError"
  | .sendApiException _ => "ApiException"
  | .sendRequestException _ => "RequestException"

/-- Whether the exception is an instance of `PracticumAPIError`
(the class matched by the first `except` clause of the main loop). -/
def PyErr.isPracticumAPIError : PyErr → Bool
  | .apiRequestError _ => true
  | .apiResponseError _ => true
  | .apiJsonError _ => true
  | _ => false

/-- Python `str(exception)`: the message it was constructed with, except that
`KeyError` renders its argument through `repr`, wrapping it in quotes. -/
def PyErr.toText : PyErr → String
  | .typeError m => m
  | .keyError m => "\x27" ++ m ++ "\x27"
  | .valueError m => m
  | .apiRequestError m => m
  | .apiResponseError m => m
  | .apiJsonError m => m
  | .sendApiException m => m
  | .sendRequestException m => m

/-- A failure of `bot.send_message`: `telebot.apihelper.ApiException` or
`requests.RequestException`, the two classes that `send_message` catches,
logs and re-raises, and that the main loop's error branch swallows. -/
inductive SendErr where
  | apiException (msg : String) : SendErr
  | requestException (msg : String) : SendErr
deriving Repr, DecidableEq

/-- The `PyErr` that a `SendErr` propagates as when `send_message` re-raises. -/
def SendErr.toPyErr : SendErr → PyErr
  | .apiException m => PyErr.sendApiException m
  | .requestException m => PyErr.sendRequestException m

/-! ## Configuration (module constants and `check_tokens`) -/

/-- The process environment as seen through `os.getenv`: the three required
variables `PRACTICUM_TOKEN`, `TELEGRAM_TOKEN`, `TELEGRAM_CHAT_ID`
(`none` = unset). -/
structure Env where
  practicumToken : Option String
  telegramToken : Option String
  telegramChatId : Option String
deriving Repr, DecidableEq

def RETRY_PERIOD : Nat := 600

def ENDPOINT : String := "https://practicum.yandex.ru/api/user_api/homework_statuses/"

def HOMEWORK_VERDICTS : List (String × String) :=
  [("approved", "Работа проверена: ревьюеру всё понравилось. Ура!"),
   ("reviewing", "Работа взята на проверку ревьюером."),
   ("rejected", "Работа проверена: у ревьюера есть замечания.")]

/-- Python truthiness test `not token` applied to an `os.getenv` result:
true when the variable is unset or bound to the empty string. -/
def tokenMissing : Option String → Bool
  | none => true
  | some s => s = ""

/-- The `tokens` tuple of `check_tokens`: each required value paired with
its name. -/
def tokensList (env : Env) : List (Option String × String) :=
  [(env.practicumToken, "PRACTICUM_TOKEN"),
   (env.telegramToken, "TELEGRAM_TOKEN"),
   (env.telegramChatId, "TELEGRAM_CHAT_ID")]

/-- The list comprehension `[name for token, name in tokens if not token]`:
names of the required variables whose value is falsy. When non-empty,
`check_tokens` logs it at CRITICAL level. -/
def missingTokens (env : Env) : List String :=
  ((tokensList env).filter (fun p => tokenMissing p.1)).map (fun p => p.2)

/-- `check_tokens`: returns `not bool(missing)`. -/
def check_tokens (env : Env) : Bool :=
  (missingTokens env).isEmpty

/-- What happens before the loop in `main`: either `sys.exit` (a non-zero
exit, since `sys.exit` is given a string) after `check_tokens` logged the
missing names, or the polling loop is entered. No network call happens
before this decision. -/
inductive StartOutcome where
  | exited (loggedMissing : List String) (exitArg : String) : StartOutcome
  | loopEntered : StartOutcome
deriving Repr, DecidableEq

/-- The startup portion of `main`: `if not check_tokens(): sys.exit(...)`. -/
def mainStartup (env : Env) : StartOutcome :=
  if check_tokens env then
    StartOutcome.loopEntered
  else
    StartOutcome.exited (missingTokens env) "Программа принудительно остановлена."

/-! ## Python value rendering (`str`/`repr` of decoded JSON values) -/

mutual

/-- Python `repr` of a decoded JSON value (`None`, `True`, quoted strings,
bracketed containers). -/
def pyRepr : Json → String
  | Json.null => "None"
  | Json.bool true => "True"
  | Json.bool false => "False"
  | Json.num n => toString n
  | Json.str s => "\x27" ++ s ++ "\x27"
  | Json.arr xs => "[" ++ String.intercalate ", " (pyReprList xs) ++ "]"
  | Json.obj fs => "\x7b" ++ String.intercalate ", " (pyReprFields fs) ++ "\x7d"

def pyReprList : List Json → List String
  | [] => []
  | x :: xs => pyRepr x :: pyReprList xs

def pyReprFields : List (String × Json) → List String
  | [] => []
  | (k, v) :: fs => ("\x27" ++ k ++ "\x27: " ++ pyRepr v) :: pyReprFields fs

end

/-- Python `str` of a decoded JSON value: like `repr` except that strings
render without quotes (what an f-string interpolates). -/
def pyStr : Json → String
  | Json.str s => s
  | j => pyRepr j

/-! ## Python container operations used by the script -/

/-- Python `key in container` for a string key: dict membership for objects,
element equality for lists, substring test for strings; other values raise
`TypeError` (not iterable). -/
def pyContains (container : Json) (key : String) : Except PyErr Bool :=
  match container with
  | Json.obj fields => Except.ok (lookupField fields key).isSome
  | Json.arr xs =>
    Except.ok (xs.any (fun j => match j with
      | Json.str s => s = key
      | _ => false))
  | Json.str s => Except.ok (charsInfix key.data s.data)
  | _ => Except.error (PyErr.typeError "argument is not iterable")

/-- Python `container[key]` for a string key: dict indexing for objects
(`KeyError` if absent); lists and strings reject string indices; other
values are not subscriptable. -/
def pyGetItem (container : Json) (key : String) : Except PyErr Json :=
  match container with
  | Json.obj fields =>
    match lookupField fields key with
    | some v => Except.ok v
    | none => Except.error (PyErr.keyError key)
  | Json.arr _ =>
    Except.error (PyErr.typeError "list indices must be integers or slices, not str")
  | Json.str _ => Except.error (PyErr.typeError "string indices must be integers")
  | _ => Except.error (PyErr.typeError "object is not subscriptable")

/-- Python `HOMEWORK_VERDICTS.get(status)`: `None` when the key is absent,
`TypeError` when the key is unhashable (a list or a dict). -/
def verdictsGet (status : Json) : Except PyErr (Option String) :=
  match status with
  | Json.arr _ => Except.error (PyErr.typeError "unhashable type: list")
  | Json.obj _ => Except.error (PyErr.typeError "unhashable type: dict")
  | Json.str s => Except.ok (lookupField HOMEWORK_VERDICTS s)
  | _ => Except.ok none

/-! ## `get_api_answer` -/

/-- What the single `requests.get` call in `get_api_answer` produces, as
supplied by the network environment: either a `requests.RequestException`
during transport, or an HTTP response carrying a status code and the result
of `.json()` on its body (`Except.error` = `ValueError` while decoding). -/
inductive HttpOutcome where
  | transportError (msg : String) : HttpOutcome
  | response (statusCode : Nat) (body : Except String Json) : HttpOutcome
deriving Repr

/-- `get_api_answer(timestamp)`: issues `GET ENDPOINT?from_date=timestamp`
(the `timestamp` argument only parameterises the request; the outcome comes
from the network environment), then maps transport failure to
`APIRequestError`, a non-200 status to `APIResponseError` naming the
endpoint and the status code, and a JSON decoding failure to `APIJSONError`;
a 200 response with decodable JSON is returned decoded. -/
def get_api_answer (_timestamp : Json) (outcome : HttpOutcome) : Except PyErr Json :=
  match outcome with
  | HttpOutcome.transportError err =>
    Except.error (PyErr.apiRequestError ("Ошибка запроса к API: " ++ err))
  | HttpOutcome.response statusCode body =>
    if statusCode ≠ 200 then
      Except.error (PyErr.apiResponseError
        ("Эндпоинт " ++ ENDPOINT ++ " недоступен. Ответ API: " ++ toString statusCode))
    else
      match body with
      | Except.error err =>
        Except.error (PyErr.apiJsonError ("Не удалось разобрать JSON в ответе API: " ++ err))
      | Except.ok j => Except.ok j

/-! ## `check_response` -/

/-- `check_response(response)`: `TypeError` unless the payload is a dict,
`KeyError` unless both `homeworks` and `current_date` are present,
`TypeError` unless `homeworks` is a list; otherwise returns that list. -/
def check_response (response : Json) : Except PyErr (List Json) :=
  match response with
  | Json.obj fields =>
    if (lookupField fields "homeworks").isNone ∨ (lookupField fields "current_date").isNone then
      Except.error (PyErr.keyError "В ответе API отсутствуют ожидаемые ключи")
    else
      match lookupField fields "homeworks" with
      | some (Json.arr xs) => Except.ok xs
      | _ => Except.error (PyErr.typeError "Ключ \"homeworks\" должен содержать список")
  | _ => Except.error (PyErr.typeError "Ответ API имеет неверный тип, ожидался dict")

/-! ## `parse_status` -/

/-- `parse_status(homework)`: `KeyError` when `homework_name` or `status` is
absent, `ValueError` when the status has no verdict in `HOMEWORK_VERDICTS`,
otherwise the formatted notification sentence. -/
def parse_status (homework : Json) : Except PyErr String :=
  match pyContains homework "homework_name" with
  | Except.error e => Except.error e
  | Except.ok hasName =>
    if !hasName then
      Except.error (PyErr.keyError "В ответе отсутствует ключ \"homework_name\"")
    else
      match pyContains homework "status" with
      | Except.error e => Except.error e
      | Except.ok hasStatus =>
        if !hasStatus then
          Except.error (PyErr.keyError "В ответе отсутствует ключ \"status\"")
        else
          match pyGetItem homework "homework_name" with
          | Except.error e => Except.error e
          | Except.ok homework_name =>
            match pyGetItem homework "status" with
            | Except.error e => Except.error e
            | Except.ok status =>
              match verdictsGet status with
              | Except.error e => Except.error e
              | Except.ok none =>
                Except.error (PyErr.valueError ("Неожиданный статус работы: " ++ pyStr status))
              | Except.ok (some v) =>
                Except.ok ("Изменился статус проверки работы \"" ++ pyStr homework_name ++ "\". " ++ v)

/-! ## The main loop (`main`) -/

/-- The loop-carried state of `main`: the `timestamp` cursor (initially
`int(time.time())`, afterwards whatever `response.get("current_date", ...)`
returned, hence a JSON value) and `last_error_message` (initially `None`). -/
structure PollState where
  timestamp : Json
  lastError : Option String
deriving Repr

/-- The I/O environment of one loop iteration: the outcome of the single
`requests.get` call, and the outcomes of the successive `bot.send_message`
calls of this iteration, consumed in order (`none` = the send succeeds;
a missing entry also means success). -/
structure IterEnv where
  http : HttpOutcome
  sendOutcomes : List (Option SendErr)
deriving Repr

/-- Outcome of the `n`-th `bot.send_message` call of the iteration
(`none` = success, also when the environment lists no more outcomes). -/
def sendOutcomeAt (outs : List (Option SendErr)) : Nat → Option SendErr :=
  match outs with
  | [] => fun _ => none
  | o :: rest => fun n =>
    match n with
    | 0 => o
    | n + 1 => sendOutcomeAt rest n

/-- Observable result of one iteration of the `while True` body: the new
state, the status notification attempted on the success path (message and
whether the send succeeded), the error notification attempted in the
`except` branches, and the exception the iteration caught (`none` when the
`try` body ran to completion). -/
structure IterOut where
  state : PollState
  statusSend : Option (String × Bool)
  errorSend : Option (String × Bool)
  caught : Option PyErr
deriving Repr

/-- The f-string of the `except` clause that handles `error`:
`PracticumAPIError` instances get `Сбой в работе программы: {error}`, any
other exception gets `Неизвестная ошибка: {error}`. -/
def composeErrMsg (e : PyErr) : String :=
  if e.isPracticumAPIError then "Сбой в работе программы: " ++ e.toText
  else "Неизвестная ошибка: " ++ e.toText

/-- The shared body of the two `except` clauses of `main`: log, and when the
composed message differs from `last_error_message`, try to send it
(swallowing `ApiException`/`RequestException`) and update the memo;
`timestamp` is untouched. `sendsTried` counts the sends already attempted in
this iteration, indexing into `env.sendOutcomes`. -/
def errorBranch (env : IterEnv) (st : PollState) (statusSend : Option (String × Bool))
    (sendsTried : Nat) (e : PyErr) : IterOut :=
  let message := composeErrMsg e
  if st.lastError ≠ some message then
    let ok := (sendOutcomeAt env.sendOutcomes sendsTried).isNone
    { state := { timestamp := st.timestamp, lastError := some message },
      statusSend := statusSend,
      errorSend := some (message, ok),
      caught := some e }
  else
    { state := st, statusSend := statusSend, errorSend := none, caught := some e }

/-- One iteration of the `while True` body of `main`: fetch, validate,
format-and-send the first homework when the list is non-empty, advance the
cursor via `response.get("current_date", timestamp)`, clear the error memo;
any exception raised along the way lands in `errorBranch`. The trailing
`time.sleep(RETRY_PERIOD)` has no observable effect on the state. -/
def mainIter (env : IterEnv) (st : PollState) : IterOut :=
  match get_api_answer st.timestamp env.http with
  | Except.error e => errorBranch env st none 0 e
  | Except.ok response =>
    match check_response response with
    | Except.error e => errorBranch env st none 0 e
    | Except.ok homeworks =>
      match homeworks with
      | [] =>
        { state := { timestamp := jsonGetD response "current_date" st.timestamp,
                     lastError := none },
          statusSend := none, errorSend := none, caught := none }
      | hw :: _ =>
        match parse_status hw with
        | Except.error e => errorBranch env st none 0 e
        | Except.ok message =>
          match sendOutcomeAt env.sendOutcomes 0 with
          | none =>
            { state := { timestamp := jsonGetD response "current_date" st.timestamp,
                         lastError := none },
              statusSend := some (message, true), errorSend := none, caught := none }
          | some se =>
            errorBranch env st (some (message, false)) 1 se.toPyErr

/-! ## Auxiliary notions used by the claim statements -/

/-- `sub` occurs contiguously inside `s` ("the message includes ..."). -/
def strIncludes (s sub : String) : Prop :=
  ∃ l r, l ++ sub ++ r = s

/-- The homework item used by the spec's examples: name `X`, status
`approved`. -/
def exampleItem : Json :=
  Json.obj [("homework_name", Json.str "X"), ("status", Json.str "approved")]

/-- An item whose status is outside the enumeration (`archived`). -/
def archivedItem : Json :=
  Json.obj [("homework_name", Json.str "X"), ("status", Json.str "archived")]

/-- A well-shaped API response with the given homeworks list and
`current_date` value. -/
def exampleResponse (hws : List Json) (cd : Int) : Json :=
  Json.obj [("homeworks", Json.arr hws), ("current_date", Json.num cd)]

/-! ## Claims about the configuration check -/

/-- C7: for every subset of the three required configuration values missing
from the environment, `check_tokens` logs exactly the names of the missing
values (the `missing` list characterised below) and `main` exits via
`sys.exit` — a non-zero exit, reached before the loop and before any network
call (no other statement precedes it in `main`); when all three are present,
`check_tokens` returns `True` and the loop is entered. -/
theorem C7_missing_tokens_fatal (env : Env) :
    ("PRACTICUM_TOKEN" ∈ missingTokens env ↔ tokenMissing env.practicumToken = true) ∧
    ("TELEGRAM_TOKEN" ∈ missingTokens env ↔ tokenMissing env.telegramToken = true) ∧
    ("TELEGRAM_CHAT_ID" ∈ missingTokens env ↔ tokenMissing env.telegramChatId = true) ∧
    (missingTokens env ≠ [] →
      check_tokens env = false ∧
      mainStartup env =
        StartOutcome.exited (missingTokens env) "Программа принудительно остановлена.") ∧
    (missingTokens env = [] →
      check_tokens env = true ∧ mainStartup env = StartOutcome.loopEntered) := by
  obtain ⟨p, t, c⟩ := env
  cases hp : tokenMissing p <;> cases ht : tokenMissing t <;> cases hc : tokenMissing c <;>
    simp [missingTokens, tokensList, check_tokens, mainStartup, hp, ht, hc]

/-- Witness for C7 at a concrete environment with `PRACTICUM_TOKEN` unset:
the program exits before the loop, logging exactly that name. -/
theorem C7_missing_tokens_fatal_witness :
    check_tokens (Env.mk none (some "tt") (some "42")) = false ∧
    mainStartup (Env.mk none (some "tt") (some "42")) =
      StartOutcome.exited (missingTokens (Env.mk none (some "tt") (some "42")))
        "Программа принудительно остановлена." ∧
    missingTokens (Env.mk none (some "tt") (some "42")) = ["PRACTICUM_TOKEN"] :=
  have h := (C7_missing_tokens_fatal (Env.mk none (some "tt") (some "42"))).2.2.2.1
    (by decide)
  ⟨h.1, h.2, by decide⟩

/-- C10: a required environment variable bound to the empty string is
treated exactly like an unset one — same `missing` list, same startup
outcome; its name is logged among the missing ones, `check_tokens` returns
`False`, and the process exits via `sys.exit` before the loop. Stated for
each of the three variables, with the other two arbitrary. -/
theorem C10_empty_string_like_absent :
    ∀ a b : Option String,
      (missingTokens (Env.mk (some "") a b) = missingTokens (Env.mk none a b) ∧
       "PRACTICUM_TOKEN" ∈ missingTokens (Env.mk (some "") a b) ∧
       check_tokens (Env.mk (some "") a b) = false ∧
       mainStartup (Env.mk (some "") a b) =
         StartOutcome.exited (missingTokens (Env.mk (some "") a b))
           "Программа принудительно остановлена.") ∧
      (missingTokens (Env.mk a (some "") b) = missingTokens (Env.mk a none b) ∧
       "TELEGRAM_TOKEN" ∈ missingTokens (Env.mk a (some "") b) ∧
       check_tokens (Env.mk a (some "") b) = false ∧
       mainStartup (Env.mk a (some "") b) =
         StartOutcome.exited (missingTokens (Env.mk a (some "") b))
           "Программа принудительно остановлена.") ∧
      (missingTokens (Env.mk a b (some "")) = missingTokens (Env.mk a b none) ∧
       "TELEGRAM_CHAT_ID" ∈ missingTokens (Env.mk a b (some "")) ∧
       check_tokens (Env.mk a b (some "")) = false ∧
       mainStartup (Env.mk a b (some "")) =
         StartOutcome.exited (missingTokens (Env.mk a b (some "")))
           "Программа принудительно остановлена.") := by
  intro a b
  have hset : tokenMissing (some "") = true := rfl
  have hnone : tokenMissing none = true := rfl
  cases ha : tokenMissing a <;> cases hb : tokenMissing b <;>
    simp [missingTokens, tokensList, check_tokens, mainStartup, hset, hnone, ha, hb]

/-! ## Claims about `parse_status` -/

/-- C2: for an item mapping with a `homework_name` field and a `status`
field holding one of the three enumerated statuses, `parse_status` returns
exactly `Изменился статус проверки работы "N". ` followed by the fixed
verdict (for `approved` the verdict is the one recorded below); a missing
`homework_name` or `status` field raises a `KeyError`, and a status with no
entry in `HOMEWORK_VERDICTS` (any unknown string, or a non-string value)
raises an error. -/
theorem C2_parse_status_formats_and_rejects
    (fields : List (String × Json)) (nameVal statusVal : Json) (s v : String) :
    (lookupField fields "homework_name" = some nameVal →
     lookupField fields "status" = some (Json.str s) →
     lookupField HOMEWORK_VERDICTS s = some v →
     parse_status (Json.obj fields) =
       Except.ok ("Изменился статус проверки работы \"" ++ pyStr nameVal ++ "\". " ++ v)) ∧
    (lookupField HOMEWORK_VERDICTS "approved" =
       some "Работа проверена: ревьюеру всё понравилось. Ура!") ∧
    (lookupField fields "homework_name" = none →
     parse_status (Json.obj fields) =
       Except.error (PyErr.keyError "В ответе отсутствует ключ \"homework_name\"")) ∧
    (lookupField fields "status" = none →
     (lookupField fields "homework_name").isSome →
     parse_status (Json.obj fields) =
       Except.error (PyErr.keyError "В ответе отсутствует ключ \"status\"")) ∧
    (lookupField fields "homework_name" = some nameVal →
     lookupField fields "status" = some statusVal →
     (∀ t, statusVal = Json.str t → lookupField HOMEWORK_VERDICTS t = none) →
     ∃ e : PyErr, parse_status (Json.obj fields) = Except.error e) := by
  refine ⟨?_, rfl, ?_, ?_, ?_⟩
  · intro h1 h2 h3
    simp [parse_status, pyContains, pyGetItem, h1, h2, h3, verdictsGet]
  · intro h1
    simp [parse_status, pyContains, h1]
  · intro h1 h2
    simp [parse_status, pyContains, h1, h2]
  · intro h1 h2 h3
    cases statusVal with
    | str t =>
      exact ⟨PyErr.valueError ("Неожиданный статус работы: " ++ pyStr (Json.str t)),
        by simp [parse_status, pyContains, pyGetItem, h1, h2, verdictsGet, h3 t rfl]⟩
    | arr xs =>
      exact ⟨PyErr.typeError "unhashable type: list",
        by simp [parse_status, pyContains, pyGetItem, h1, h2, verdictsGet]⟩
    | obj fs =>
      exact ⟨PyErr.typeError "unhashable type: dict",
        by simp [parse_status, pyContains, pyGetItem, h1, h2, verdictsGet]⟩
    | null =>
      exact ⟨PyErr.valueError ("Неожиданный статус работы: " ++ pyStr Json.null),
        by simp [parse_status, pyContains, pyGetItem, h1, h2, verdictsGet]⟩
    | bool b =>
      exact ⟨PyErr.valueError ("Неожиданный статус работы: " ++ pyStr (Json.bool b)),
        by simp [parse_status, pyContains, pyGetItem, h1, h2, verdictsGet]⟩
    | num n =>
      exact ⟨PyErr.valueError ("Неожиданный статус работы: " ++ pyStr (Json.num n)),
        by simp [parse_status, pyContains, pyGetItem, h1, h2, verdictsGet]⟩

/-- Witness for C2: the approved item from the spec example formats to the
exact sentence, and an item without `homework_name` raises `KeyError`. -/
theorem C2_parse_status_formats_and_rejects_witness :
    parse_status (Json.obj [("homework_name", Json.str "X"), ("status", Json.str "approved")]) =
      Except.ok "Изменился статус проверки работы \"X\". Работа проверена: ревьюеру всё понравилось. Ура!" ∧
    parse_status (Json.obj [("status", Json.str "archived")]) =
      Except.error (PyErr.keyError "В ответе отсутствует ключ \"homework_name\"") := by
  constructor
  · have h := (C2_parse_status_formats_and_rejects
      [("homework_name", Json.str "X"), ("status", Json.str "approved")]
      (Json.str "X") (Json.str "approved") "approved"
      "Работа проверена: ревьюеру всё понравилось. Ура!").1 rfl rfl rfl
    exact h.trans (congrArg Except.ok (by decide))
  · exact (C2_parse_status_formats_and_rejects
      [("status", Json.str "archived")] Json.null Json.null "" "").2.2.1 rfl

/-! ## Claims about `get_api_answer` -/

/-- C4: `get_api_answer` maps a transport failure to `APIRequestError`, a
non-200 status to `APIResponseError` whose message includes the endpoint
and the status code, and an unparseable body to `APIJSONError`; these three
exception classes are pairwise distinct (so callers can branch on them) and
all are `PracticumAPIError` subclasses; a 200 response with parseable JSON
is returned decoded. -/
theorem C4_get_api_answer_error_taxonomy
    (ts : Json) (m a b : String) (status : Nat) (body : Except String Json) (j : Json) :
    (get_api_answer ts (HttpOutcome.transportError m) =
       Except.error (PyErr.apiRequestError ("Ошибка запроса к API: " ++ m))) ∧
    (status ≠ 200 →
       get_api_answer ts (HttpOutcome.response status body) =
         Except.error (PyErr.apiResponseError
           ("Эндпоинт " ++ ENDPOINT ++ " недоступен. Ответ API: " ++ toString status)) ∧
       strIncludes ("Эндпоинт " ++ ENDPOINT ++ " недоступен. Ответ API: " ++ toString status)
         (toString status) ∧
       strIncludes ("Эндпоинт " ++ ENDPOINT ++ " недоступен. Ответ API: " ++ toString status)
         ENDPOINT) ∧
    (get_api_answer ts (HttpOutcome.response 200 (Except.error m)) =
       Except.error (PyErr.apiJsonError ("Не удалось разобрать JSON в ответе API: " ++ m))) ∧
    (get_api_answer ts (HttpOutcome.response 200 (Except.ok j)) = Except.ok j) ∧
    (PyErr.apiRequestError a).className ≠ (PyErr.apiResponseError b).className ∧
    (PyErr.apiRequestError a).className ≠ (PyErr.apiJsonError b).className ∧
    (PyErr.apiResponseError a).className ≠ (PyErr.apiJsonError b).className ∧
    (PyErr.apiRequestError a).isPracticumAPIError = true ∧
    (PyErr.apiResponseError a).isPracticumAPIError = true ∧
    (PyErr.apiJsonError a).isPracticumAPIError = true := by
  refine ⟨rfl, ?_, rfl, rfl, ?_, ?_, ?_, rfl, rfl, rfl⟩
  · intro hs
    refine ⟨?_, ?_, ?_⟩
    · simp [get_api_answer, hs]
    · exact ⟨"Эндпоинт " ++ ENDPOINT ++ " недоступен. Ответ API: ", "",
        by simp [String.append_assoc, String.append_empty]⟩
    · exact ⟨"Эндпоинт ", " недоступен. Ответ API: " ++ toString status,
        by simp [String.append_assoc]⟩
  · simp [PyErr.className]
  · simp [PyErr.className]
  · simp [PyErr.className]

/-- Witness for C4: a 404 response produces the `APIResponseError` whose
message names the endpoint and the code. -/
theorem C4_get_api_answer_error_taxonomy_witness :
    get_api_answer (Json.num 0) (HttpOutcome.response 404 (Except.ok Json.null)) =
      Except.error (PyErr.apiResponseError
        ("Эндпоинт " ++ ENDPOINT ++ " недоступен. Ответ API: " ++ toString 404)) ∧
    strIncludes ("Эндпоинт " ++ ENDPOINT ++ " недоступен. Ответ API: " ++ toString 404) ENDPOINT :=
  have h := (C4_get_api_answer_error_taxonomy (Json.num 0) "" "" ""
    404 (Except.ok Json.null) Json.null).2.1 (by decide)
  ⟨h.1, h.2.2⟩

/-! ## Claims about `check_response` -/

/-- C5 counterexample: the claim says the three violation kinds are raised
as distinct error kinds, but the wrong-shape violation (payload not a dict)
and the wrong-field-type violation (`homeworks` not a list) are both raised
as the same exception class `TypeError`; only the messages differ. -/
theorem C5_check_response_counterexample :
    check_response (Json.num 0) =
      Except.error (PyErr.typeError "Ответ API имеет неверный тип, ожидался dict") ∧
    check_response (Json.obj [("homeworks", Json.num 1), ("current_date", Json.num 2)]) =
      Except.error (PyErr.typeError "Ключ \"homeworks\" должен содержать список") ∧
    (PyErr.typeError "Ответ API имеет неверный тип, ожидался dict").className =
      (PyErr.typeError "Ключ \"homeworks\" должен содержать список").className :=
  ⟨rfl, rfl, rfl⟩

/-- C5 (amended): `check_response` raises on a non-mapping payload, on a
missing `homeworks`/`current_date` field, and on a non-list `homeworks`
field, and returns the (possibly empty) list unchanged otherwise; the three
violations carry pairwise distinct messages, and the missing-field violation
is a distinct exception class (`KeyError`), but the wrong-shape and
wrong-field-type violations share the class `TypeError`. -/
theorem C5_check_response_amended (j : Json) (fields : List (String × Json))
    (hv : Json) (xs : List Json) :
    ((∀ fs, j ≠ Json.obj fs) →
     check_response j =
       Except.error (PyErr.typeError "Ответ API имеет неверный тип, ожидался dict")) ∧
    ((lookupField fields "homeworks").isNone ∨ (lookupField fields "current_date").isNone →
      check_response (Json.obj fields) =
        Except.error (PyErr.keyError "В ответе API отсутствуют ожидаемые ключи")) ∧
    (lookupField fields "homeworks" = some hv →
     (lookupField fields "current_date").isSome →
     (∀ ys, hv ≠ Json.arr ys) →
     check_response (Json.obj fields) =
       Except.error (PyErr.typeError "Ключ \"homeworks\" должен содержать список")) ∧
    (lookupField fields "homeworks" = some (Json.arr xs) →
     (lookupField fields "current_date").isSome →
     check_response (Json.obj fields) = Except.ok xs) ∧
    (PyErr.keyError "В ответе API отсутствуют ожидаемые ключи").className ≠
      (PyErr.typeError "Ответ API имеет неверный тип, ожидался dict").className ∧
    (PyErr.keyError "В ответе API отсутствуют ожидаемые ключи").className ≠
      (PyErr.typeError "Ключ \"homeworks\" должен содержать список").className := by
  refine ⟨?_, ?_, ?_, ?_, by decide, by decide⟩
  · intro hno
    cases j with
    | obj fs => exact absurd rfl (hno fs)
    | null => rfl
    | bool b => rfl
    | num n => rfl
    | str s => rfl
    | arr ys => rfl
  · intro h
    rcases h with h | h <;>
      simp [check_response, Option.isNone_iff_eq_none.mp h]
  · intro h1 h2 h3
    rw [Option.isSome_iff_exists] at h2
    obtain ⟨cd, hcd⟩ := h2
    cases hv with
    | arr ys => exact absurd rfl (h3 ys)
    | null => simp [check_response, h1, hcd]
    | bool b => simp [check_response, h1, hcd]
    | num n => simp [check_response, h1, hcd]
    | str s => simp [check_response, h1, hcd]
    | obj fs => simp [check_response, h1, hcd]
  · intro h1 h2
    rw [Option.isSome_iff_exists] at h2
    obtain ⟨cd, hcd⟩ := h2
    simp [check_response, h1, hcd]

/-- Witness for C5 (amended): a non-mapping payload (a bare list) raises the
wrong-shape `TypeError`; a well-shaped response with an empty list validates
to the empty list; one lacking `current_date` raises `KeyError`. -/
theorem C5_check_response_amended_witness :
    check_response (Json.arr []) =
      Except.error (PyErr.typeError "Ответ API имеет неверный тип, ожидался dict") ∧
    check_response (Json.obj [("homeworks", Json.arr []), ("current_date", Json.num 5)]) =
      Except.ok [] ∧
    check_response (Json.obj [("homeworks", Json.arr [])]) =
      Except.error (PyErr.keyError "В ответе API отсутствуют ожидаемые ключи") := by
  refine ⟨?_, ?_, ?_⟩
  · exact (C5_check_response_amended (Json.arr []) [] Json.null []).1
      (fun fs h => Json.noConfusion h)
  · exact (C5_check_response_amended Json.null
      [("homeworks", Json.arr []), ("current_date", Json.num 5)] Json.null []).2.2.2.1
      rfl (by decide)
  · exact (C5_check_response_amended Json.null
      [("homeworks", Json.arr [])] Json.null []).2.1 (Or.inr (by decide))

/-! ## Structure lemmas about one loop iteration -/

/-- An iteration that went through an `except` clause records the caught
exception. -/
theorem errorBranch_caught (env : IterEnv) (st : PollState)
    (ss : Option (String × Bool)) (n : Nat) (e : PyErr) :
    (errorBranch env st ss n e).caught = some e := by
  by_cases h : st.lastError = some (composeErrMsg e) <;> simp [errorBranch, h]

/-- The `except` clauses never touch the `timestamp` cursor. -/
theorem errorBranch_timestamp (env : IterEnv) (st : PollState)
    (ss : Option (String × Bool)) (n : Nat) (e : PyErr) :
    (errorBranch env st ss n e).state.timestamp = st.timestamp := by
  by_cases h : st.lastError = some (composeErrMsg e) <;> simp [errorBranch, h]

/-- The `except` clauses never touch the status send already recorded. -/
theorem errorBranch_statusSend (env : IterEnv) (st : PollState)
    (ss : Option (String × Bool)) (n : Nat) (e : PyErr) :
    (errorBranch env st ss n e).statusSend = ss := by
  by_cases h : st.lastError = some (composeErrMsg e) <;> simp [errorBranch, h]

/-- After an `except` clause the memo always holds the composed message of
the caught error: either it was just updated to it, or it already was it
(which is why the notification was suppressed). -/
theorem errorBranch_lastError (env : IterEnv) (st : PollState)
    (ss : Option (String × Bool)) (n : Nat) (e : PyErr) :
    (errorBranch env st ss n e).state.lastError = some (composeErrMsg e) := by
  by_cases h : st.lastError = some (composeErrMsg e) <;> simp [errorBranch, h]

/-- Notification behaviour of the `except` clauses: a message differing from
the memo is attempted exactly once (its success given by the environment)
and memoized; a message equal to the memo is not re-sent. -/
theorem errorBranch_errorSend (env : IterEnv) (st : PollState)
    (ss : Option (String × Bool)) (n : Nat) (e : PyErr) :
    (st.lastError ≠ some (composeErrMsg e) →
      (errorBranch env st ss n e).errorSend =
        some (composeErrMsg e, (sendOutcomeAt env.sendOutcomes n).isNone)) ∧
    (st.lastError = some (composeErrMsg e) →
      (errorBranch env st ss n e).errorSend = none) := by
  constructor <;> intro h <;> simp [errorBranch, h]

/-- Every iteration either runs one of the two `except` clauses (with the
status send and send counter of the failure point), or completes the `try`
body after a successful fetch and validation, advancing the cursor to the
response's `current_date` and clearing the memo. -/
theorem mainIter_shape (env : IterEnv) (st : PollState) :
    (∃ e ss n, mainIter env st = errorBranch env st ss n e) ∨
    (∃ resp, get_api_answer st.timestamp env.http = Except.ok resp ∧
      ∃ ss, mainIter env st =
        { state := { timestamp := jsonGetD resp "current_date" st.timestamp,
                     lastError := none },
          statusSend := ss, errorSend := none, caught := none }) := by
  rcases hg : get_api_answer st.timestamp env.http with e1 | resp
  · exact Or.inl ⟨e1, none, 0, by simp [mainIter, hg]⟩
  · rcases hc : check_response resp with e1 | hws
    · exact Or.inl ⟨e1, none, 0, by simp [mainIter, hg, hc]⟩
    · rcases hws with _ | ⟨hw, t⟩
      · exact Or.inr ⟨resp, rfl, none, by simp [mainIter, hg, hc]⟩
      · rcases hp : parse_status hw with e1 | msg
        · exact Or.inl ⟨e1, none, 0, by simp [mainIter, hg, hc, hp]⟩
        · rcases hs : sendOutcomeAt env.sendOutcomes 0 with _ | se
          · exact Or.inr ⟨resp, rfl, some (msg, true), by simp [mainIter, hg, hc, hp, hs]⟩
          · exact Or.inl ⟨se.toPyErr, some (msg, false), 1, by simp [mainIter, hg, hc, hp, hs]⟩

/-! ## Claims about the loop driver -/

/-- C1 counterexample, refuting two parts of the claim. First: an iteration
that completes without any error (nothing caught) moves the cursor from
`100` down to `0`, because the code assigns
`response.get("current_date", timestamp)` without ever comparing it to the
previous cursor — "never takes a value smaller than its previous value" is
false. Second: on an iteration whose fetch and validation both succeed but
whose formatting step then fails (`archived` status), the cursor is NOT set
to the response's `current_date` (5) but stays at `100` — "on every
iteration in which fetch and validation succeed, the cursor is set to the
response's current_date value" is also false. -/
theorem C1_cursor_counterexample :
    ((mainIter
      { http := HttpOutcome.response 200 (Except.ok (exampleResponse [] 0)),
        sendOutcomes := [] }
      { timestamp := Json.num 100, lastError := none }).caught = none ∧
    (mainIter
      { http := HttpOutcome.response 200 (Except.ok (exampleResponse [] 0)),
        sendOutcomes := [] }
      { timestamp := Json.num 100, lastError := none }).state.timestamp = Json.num 0 ∧
    (0 : Int) < 100) ∧
    (get_api_answer (Json.num 100)
      (HttpOutcome.response 200 (Except.ok (exampleResponse [archivedItem] 5))) =
      Except.ok (exampleResponse [archivedItem] 5) ∧
    check_response (exampleResponse [archivedItem] 5) = Except.ok [archivedItem] ∧
    jsonGetD (exampleResponse [archivedItem] 5) "current_date" (Json.num 100) = Json.num 5 ∧
    (mainIter
      { http := HttpOutcome.response 200 (Except.ok (exampleResponse [archivedItem] 5)),
        sendOutcomes := [] }
      { timestamp := Json.num 100, lastError := none }).state.timestamp = Json.num 100 ∧
    (5 : Int) ≠ 100) :=
  ⟨⟨rfl, rfl, by decide⟩, rfl, rfl, rfl, rfl, by decide⟩

/-- C1 (amended): on every iteration that raises (at any step — fetch,
validation, formatting or sending) the cursor is unchanged, and on every
iteration that completes without raising the cursor is set to
`response.get("current_date", timestamp)` of the fetched response — i.e. a
value the server explicitly returned (or the old cursor if the field were
absent). The cursor is not guaranteed non-decreasing: it takes whatever
`current_date` the server returns, which may be smaller (see the
counterexample). -/
theorem C1_cursor_amended (env : IterEnv) (st : PollState) :
    ((mainIter env st).caught.isSome = true →
      (mainIter env st).state.timestamp = st.timestamp) ∧
    ((mainIter env st).caught = none →
      ∃ resp, get_api_answer st.timestamp env.http = Except.ok resp ∧
        (mainIter env st).state.timestamp = jsonGetD resp "current_date" st.timestamp) := by
  rcases mainIter_shape env st with ⟨e, ss, n, hEq⟩ | ⟨resp, hg, ss, hEq⟩
  · constructor
    · intro _
      rw [hEq]
      exact errorBranch_timestamp env st ss n e
    · intro h
      rw [hEq, errorBranch_caught] at h
      exact Option.noConfusion h
  · constructor
    · intro h
      rw [hEq] at h
      simp at h
    · intro _
      exact ⟨resp, hg, by rw [hEq]⟩

/-- Witness for C1 (amended): a transport failure leaves the cursor at its
previous value. -/
theorem C1_cursor_amended_witness :
    (mainIter { http := HttpOutcome.transportError "conn", sendOutcomes := [] }
      { timestamp := Json.num 100, lastError := none }).caught.isSome = true ∧
    (mainIter { http := HttpOutcome.transportError "conn", sendOutcomes := [] }
      { timestamp := Json.num 100, lastError := none }).state.timestamp = Json.num 100 :=
  ⟨rfl, (C1_cursor_amended
    { http := HttpOutcome.transportError "conn", sendOutcomes := [] }
    { timestamp := Json.num 100, lastError := none }).1 rfl⟩

/-- C3: per-iteration error-notification deduplication. When an iteration
catches an error whose composed message differs from the memo (as on the
first failure after a success, where the memo is `None`), exactly one chat
notification carrying that message is attempted and the message is
memoized; when the composed message equals the memo, no error notification
is attempted. Consequently (last conjunct) an immediately following failing
iteration attempts no notification if its message is textually identical,
and attempts one fresh notification if it differs. -/
theorem C3_error_dedup (env : IterEnv) (st : PollState) (e : PyErr) :
    (mainIter env st).caught = some e →
    ((st.lastError ≠ some (composeErrMsg e) →
       (∃ ok, (mainIter env st).errorSend = some (composeErrMsg e, ok)) ∧
       (mainIter env st).state.lastError = some (composeErrMsg e)) ∧
     (st.lastError = some (composeErrMsg e) →
       (mainIter env st).errorSend = none ∧
       (mainIter env st).state.lastError = some (composeErrMsg e)) ∧
     (∀ env2 e2, (mainIter env2 (mainIter env st).state).caught = some e2 →
       (composeErrMsg e2 = composeErrMsg e →
         (mainIter env2 (mainIter env st).state).errorSend = none) ∧
       (composeErrMsg e2 ≠ composeErrMsg e →
         ∃ ok, (mainIter env2 (mainIter env st).state).errorSend =
           some (composeErrMsg e2, ok)))) := by
  have key : ∀ (env1 : IterEnv) (st1 : PollState) (e1 : PyErr),
      (mainIter env1 st1).caught = some e1 →
      ((st1.lastError ≠ some (composeErrMsg e1) →
         (∃ ok, (mainIter env1 st1).errorSend = some (composeErrMsg e1, ok)) ∧
         (mainIter env1 st1).state.lastError = some (composeErrMsg e1)) ∧
       (st1.lastError = some (composeErrMsg e1) →
         (mainIter env1 st1).errorSend = none ∧
         (mainIter env1 st1).state.lastError = some (composeErrMsg e1))) := by
    intro env1 st1 e1 hc
    rcases mainIter_shape env1 st1 with ⟨e0, ss, n, hEq⟩ | ⟨resp, hg, ss, hEq⟩
    · rw [hEq, errorBranch_caught] at hc
      cases Option.some.inj hc
      constructor
      · intro hne
        refine ⟨⟨(sendOutcomeAt env1.sendOutcomes n).isNone, ?_⟩, ?_⟩
        · rw [hEq]
          exact (errorBranch_errorSend env1 st1 ss n e1).1 hne
        · rw [hEq]
          exact errorBranch_lastError env1 st1 ss n e1
      · intro heq
        refine ⟨?_, ?_⟩
        · rw [hEq]
          exact (errorBranch_errorSend env1 st1 ss n e1).2 heq
        · rw [hEq]
          exact errorBranch_lastError env1 st1 ss n e1
    · rw [hEq] at hc
      exact Option.noConfusion hc
  intro hc
  have h1 := key env st e hc
  have hmemo : (mainIter env st).state.lastError = some (composeErrMsg e) := by
    by_cases hme : st.lastError = some (composeErrMsg e)
    · exact (h1.2 hme).2
    · exact (h1.1 hme).2
  refine ⟨h1.1, h1.2, ?_⟩
  intro env2 e2 hc2
  have h2 := key env2 (mainIter env st).state e2 hc2
  constructor
  · intro heq
    exact (h2.2 (by rw [hmemo, heq])).1
  · intro hne
    refine (h2.1 ?_).1
    rw [hmemo]
    intro hx
    exact hne (Option.some.inj hx).symm

/-- Witness for C3: starting from a fresh memo, a 404 iteration attempts
exactly one error notification carrying the composed message. -/
theorem C3_error_dedup_witness :
    (mainIter { http := HttpOutcome.response 404 (Except.ok Json.null), sendOutcomes := [] }
      { timestamp := Json.num 100, lastError := none }).caught =
      some (PyErr.apiResponseError
        ("Эндпоинт " ++ ENDPOINT ++ " недоступен. Ответ API: " ++ toString 404)) ∧
    ∃ ok,
      (mainIter { http := HttpOutcome.response 404 (Except.ok Json.null), sendOutcomes := [] }
        { timestamp := Json.num 100, lastError := none }).errorSend =
        some (composeErrMsg (PyErr.apiResponseError
          ("Эндпоинт " ++ ENDPOINT ++ " недоступен. Ответ API: " ++ toString 404)), ok) := by
  refine ⟨rfl, ?_⟩
  exact ((C3_error_dedup
    { http := HttpOutcome.response 404 (Except.ok Json.null), sendOutcomes := [] }
    { timestamp := Json.num 100, lastError := none }
    (PyErr.apiResponseError
      ("Эндпоинт " ++ ENDPOINT ++ " недоступен. Ответ API: " ++ toString 404)) rfl).1
    (by simp)).1

/-- C8: when the error-notification send itself fails, the iteration still
completes (in the model `mainIter` is total because the inner `try` of the
error branch catches exactly the classes `send_message` re-raises, so the
loop reaches the next sleep/poll cycle), the cursor is untouched, and the
memo is nevertheless updated to the new message — the assignment
`last_error_message = message` runs after the swallowed send failure. -/
theorem C8_error_notify_failure_still_memoizes (env : IterEnv) (st : PollState) (e : PyErr) :
    (mainIter env st).caught = some e →
    st.lastError ≠ some (composeErrMsg e) →
    (mainIter env st).errorSend = some (composeErrMsg e, false) →
    (mainIter env st).state.lastError = some (composeErrMsg e) ∧
    (mainIter env st).state.timestamp = st.timestamp := by
  intro hc _ _
  rcases mainIter_shape env st with ⟨e0, ss, n, hEq⟩ | ⟨resp, hg, ss, hEq⟩
  · rw [hEq, errorBranch_caught] at hc
    cases Option.some.inj hc
    constructor
    · rw [hEq]
      exact errorBranch_lastError env st ss n e
    · rw [hEq]
      exact errorBranch_timestamp env st ss n e
  · rw [hEq] at hc
    exact Option.noConfusion hc

/-- Witness for C8: a 404 iteration whose error notification fails
(`ApiException`) still memoizes the message and keeps the cursor. -/
theorem C8_error_notify_failure_still_memoizes_witness :
    (mainIter
      { http := HttpOutcome.response 404 (Except.ok Json.null),
        sendOutcomes := [some (SendErr.apiException "boom")] }
      { timestamp := Json.num 100, lastError := none }).errorSend =
      some (composeErrMsg (PyErr.apiResponseError
        ("Эндпоинт " ++ ENDPOINT ++ " недоступен. Ответ API: " ++ toString 404)), false) ∧
    (mainIter
      { http := HttpOutcome.response 404 (Except.ok Json.null),
        sendOutcomes := [some (SendErr.apiException "boom")] }
      { timestamp := Json.num 100, lastError := none }).state.lastError =
      some (composeErrMsg (PyErr.apiResponseError
        ("Эндпоинт " ++ ENDPOINT ++ " недоступен. Ответ API: " ++ toString 404))) :=
  ⟨rfl,
   (C8_error_notify_failure_still_memoizes
     { http := HttpOutcome.response 404 (Except.ok Json.null),
       sendOutcomes := [some (SendErr.apiException "boom")] }
     { timestamp := Json.num 100, lastError := none }
     (PyErr.apiResponseError
       ("Эндпоинт " ++ ENDPOINT ++ " недоступен. Ответ API: " ++ toString 404))
     rfl (by simp) rfl).1⟩

/-- C9 counterexample: an iteration in which the fetch and the validation
both succeed (the response decodes and validates to a one-item list) but
the later formatting step fails (`status = "archived"`) ends with the memo
SET to the new error message, not cleared — `last_error_message = None`
runs only when the whole `try` body succeeds. -/
theorem C9_memo_counterexample :
    get_api_answer (Json.num 100)
      (HttpOutcome.response 200 (Except.ok (exampleResponse [archivedItem] 5))) =
      Except.ok (exampleResponse [archivedItem] 5) ∧
    check_response (exampleResponse [archivedItem] 5) = Except.ok [archivedItem] ∧
    (mainIter
      { http := HttpOutcome.response 200 (Except.ok (exampleResponse [archivedItem] 5)),
        sendOutcomes := [] }
      { timestamp := Json.num 100, lastError := none }).state.lastError =
      some "Неизвестная ошибка: Неожиданный статус работы: archived" :=
  ⟨rfl, rfl, rfl⟩

/-- C9 (amended): the memo is cleared exactly on iterations whose whole
`try` body succeeds (fetch, validation, and — when the list is non-empty —
formatting and sending); on any iteration that raises, the memo instead
ends up holding the caught error's composed message. -/
theorem C9_memo_amended (env : IterEnv) (st : PollState) :
    ((mainIter env st).caught = none → (mainIter env st).state.lastError = none) ∧
    (∀ e, (mainIter env st).caught = some e →
      (mainIter env st).state.lastError = some (composeErrMsg e)) := by
  rcases mainIter_shape env st with ⟨e, ss, n, hEq⟩ | ⟨resp, hg, ss, hEq⟩
  · constructor
    · intro h
      rw [hEq, errorBranch_caught] at h
      exact Option.noConfusion h
    · intro e2 h
      rw [hEq, errorBranch_caught] at h
      cases Option.some.inj h
      rw [hEq]
      exact errorBranch_lastError env st ss n e
  · constructor
    · intro _
      rw [hEq]
    · intro e2 h
      rw [hEq] at h
      exact Option.noConfusion h

/-- Witness for C9 (amended): a clean empty-list iteration clears a
previously set memo. -/
theorem C9_memo_amended_witness :
    (mainIter
      { http := HttpOutcome.response 200 (Except.ok (exampleResponse [] 5)),
        sendOutcomes := [] }
      { timestamp := Json.num 100, lastError := some "old" }).caught = none ∧
    (mainIter
      { http := HttpOutcome.response 200 (Except.ok (exampleResponse [] 5)),
        sendOutcomes := [] }
      { timestamp := Json.num 100, lastError := some "old" }).state.lastError = none :=
  ⟨rfl,
   (C9_memo_amended
     { http := HttpOutcome.response 200 (Except.ok (exampleResponse [] 5)),
       sendOutcomes := [] }
     { timestamp := Json.num 100, lastError := some "old" }).1 rfl⟩

/-- C6 counterexample: an iteration whose response validates successfully
to a NON-empty list sends no status notification at all when formatting the
first item fails (`status = "archived"`): the only outbound attempt is the
error notification, which is not formatted from the item, and the cursor
does not update. This refutes "on every iteration whose response validates
successfully: if the homeworks list is non-empty, exactly one notification
is sent, formatted from the first item". -/
theorem C6_first_item_counterexample :
    check_response (exampleResponse [archivedItem] 5) = Except.ok [archivedItem] ∧
    (mainIter
      { http := HttpOutcome.response 200 (Except.ok (exampleResponse [archivedItem] 5)),
        sendOutcomes := [] }
      { timestamp := Json.num 100, lastError := none }).statusSend = none ∧
    (mainIter
      { http := HttpOutcome.response 200 (Except.ok (exampleResponse [archivedItem] 5)),
        sendOutcomes := [] }
      { timestamp := Json.num 100, lastError := none }).state.timestamp = Json.num 100 ∧
    (mainIter
      { http := HttpOutcome.response 200 (Except.ok (exampleResponse [archivedItem] 5)),
        sendOutcomes := [] }
      { timestamp := Json.num 100, lastError := none }).errorSend =
      some ("Неизвестная ошибка: Неожиданный статус работы: archived", true) :=
  ⟨rfl, rfl, rfl, rfl⟩

/-- C6 (amended): on an iteration whose fetch and validation succeed: an
empty list yields no outbound attempt and the cursor updates to
`current_date`; a non-empty list whose FIRST item formats successfully and
whose send succeeds yields exactly one status notification, formatted from
the first item only (the tail `t` is arbitrary and ignored), with the same
cursor update; if instead formatting the first item fails, or the send
fails, the iteration takes the error path: the cursor stays put and, in the
formatting-failure case, no status send is attempted at all. -/
theorem C6_first_item_amended (env : IterEnv) (st : PollState) (resp : Json)
    (hws : List Json) :
    get_api_answer st.timestamp env.http = Except.ok resp →
    check_response resp = Except.ok hws →
    ((hws = [] →
       mainIter env st =
         { state := { timestamp := jsonGetD resp "current_date" st.timestamp,
                      lastError := none },
           statusSend := none, errorSend := none, caught := none }) ∧
     (∀ hw t msg, hws = hw :: t → parse_status hw = Except.ok msg →
       sendOutcomeAt env.sendOutcomes 0 = none →
       mainIter env st =
         { state := { timestamp := jsonGetD resp "current_date" st.timestamp,
                      lastError := none },
           statusSend := some (msg, true), errorSend := none, caught := none }) ∧
     (∀ hw t e, hws = hw :: t → parse_status hw = Except.error e →
       (mainIter env st).statusSend = none ∧
       (mainIter env st).caught = some e ∧
       (mainIter env st).state.timestamp = st.timestamp) ∧
     (∀ hw t msg se, hws = hw :: t → parse_status hw = Except.ok msg →
       sendOutcomeAt env.sendOutcomes 0 = some se →
       (mainIter env st).statusSend = some (msg, false) ∧
       (mainIter env st).caught = some se.toPyErr ∧
       (mainIter env st).state.timestamp = st.timestamp)) := by
  intro hg hc
  refine ⟨?_, ?_, ?_, ?_⟩
  · intro h
    subst h
    simp [mainIter, hg, hc]
  · intro hw t msg h hp hs
    subst h
    simp [mainIter, hg, hc, hp, hs]
  · intro hw t e h hp
    subst h
    have hEq : mainIter env st = errorBranch env st none 0 e := by
      simp [mainIter, hg, hc, hp]
    rw [hEq]
    exact ⟨errorBranch_statusSend env st none 0 e, errorBranch_caught env st none 0 e,
      errorBranch_timestamp env st none 0 e⟩
  · intro hw t msg se h hp hs
    subst h
    have hEq : mainIter env st = errorBranch env st (some (msg, false)) 1 se.toPyErr := by
      simp [mainIter, hg, hc, hp, hs]
    rw [hEq]
    exact ⟨errorBranch_statusSend env st (some (msg, false)) 1 se.toPyErr,
      errorBranch_caught env st (some (msg, false)) 1 se.toPyErr,
      errorBranch_timestamp env st (some (msg, false)) 1 se.toPyErr⟩

/-- Witness for C6 (amended): the empty-list iteration takes no outbound
action and advances the cursor; the one-approved-item iteration attempts
exactly the formatted status notification. -/
theorem C6_first_item_amended_witness :
    mainIter
      { http := HttpOutcome.response 200 (Except.ok (exampleResponse [] 7)),
        sendOutcomes := [] }
      { timestamp := Json.num 100, lastError := some "old" } =
      { state := { timestamp := jsonGetD (exampleResponse [] 7) "current_date" (Json.num 100),
                   lastError := none },
        statusSend := none, errorSend := none, caught := none } ∧
    mainIter
      { http := HttpOutcome.response 200 (Except.ok (exampleResponse [exampleItem] 7)),
        sendOutcomes := [] }
      { timestamp := Json.num 100, lastError := none } =
      { state := { timestamp := jsonGetD (exampleResponse [exampleItem] 7) "current_date"
                     (Json.num 100),
                   lastError := none },
        statusSend := some
          ("Изменился статус проверки работы \"X\". Работа проверена: ревьюеру всё понравилось. Ура!",
           true),
        errorSend := none, caught := none } := by
  constructor
  · exact (C6_first_item_amended
      { http := HttpOutcome.response 200 (Except.ok (exampleResponse [] 7)),
        sendOutcomes := [] }
      { timestamp := Json.num 100, lastError := some "old" }
      (exampleResponse [] 7) [] rfl rfl).1 rfl
  · exact (C6_first_item_amended
      { http := HttpOutcome.response 200 (Except.ok (exampleResponse [exampleItem] 7)),
        sendOutcomes := [] }
      { timestamp := Json.num 100, lastError := none }
      (exampleResponse [exampleItem] 7) [exampleItem] rfl rfl).2.1
      exampleItem []
      "Изменился статус проверки работы \"X\". Работа проверена: ревьюеру всё понравилось. Ура!"
      rfl rfl rfl
